import Mathlib

/-
Verification of the tcan device-bus runtime against its specification.

The definitions below are a shallow embedding of the C++ sources:
  yalc/include/yalc/CANMsg.hpp         (frame container with little-endian accessors)
  tcan/include/tcan/Bus.hpp            (generic bus runtime: queue, writeMessage,
                                        processOutputQueue, waitForEmptyQueue, initBus)
  tcan/include/tcan/Device.hpp         (device timeout bookkeeping)
  tcan_can/include/tcan_can/CanBus.hpp (dispatch-map registration, SYNC emission)

Machine integers are modelled as Nat (unsigned) and Int (signed) with explicit
reductions modulo 2 ^ w where the C types wrap. The C right shift on signed int is
arithmetic, i.e. floor division, which is Int division with the Euclidean
conventions used by Lean for positive divisors; the C mask with 0xFF on a two
complement value is the nonnegative remainder modulo 256.
-/

set_option linter.unusedVariables false

namespace Tcan

/-! ### Frame container: yalc/include/yalc/CANMsg.hpp -/

/-- Model of the fixed array `uint8_t data_[8]` of CANMsg. Each cell holds an octet
value below 256. Indexing outside 0..7 is undefined behaviour in the source; the
model makes an out-of-range write a no-op and an out-of-range read 0, and every
theorem about the accessors carries the bounds hypothesis that keeps the source
inside the array. -/
def ByteStore : Type := Fin 8 → Nat

/-- Write one octet: `data_[i] = v`. -/
def setByte (d : ByteStore) (i : Nat) (v : Nat) : ByteStore :=
  if h : i < 8 then Function.update d ⟨i, h⟩ v else d

/-- Read one octet: `data_[i]`. -/
def getByte (d : ByteStore) (i : Nat) : Nat :=
  if h : i < 8 then d ⟨i, h⟩ else 0

/-- CANMsg (yalc/include/yalc/CANMsg.hpp, lines 20-185): identifier, send flag,
length and the 8 data octets. -/
structure CANMsg where
  COBId : Nat
  flag : Bool
  length : Nat
  data : ByteStore

/-- Constructor `CANMsg(COBId, length, data)` (lines 40-47): the member initializer
zeroes all 8 octets, then `std::copy` overwrites octets 0..length-1 with the payload.
The initializer-list constructor (lines 49-56) behaves identically. -/
def CANMsg.ofData (cobId : Nat) (len : Nat) (payload : List Nat) : CANMsg :=
  { COBId := cobId
    flag := false
    length := len
    data := fun i => if i.val < len then payload.getD i.val 0 else 0 }

/-- `setData(length, data)` (lines 91-94): stores the new length and copies octets
0..length-1 from the payload; octets length..7 are left as they were. -/
def CANMsg.setData (m : CANMsg) (len : Nat) (payload : List Nat) : CANMsg :=
  { m with
    length := len
    data := fun i => if i.val < len then payload.getD i.val 0 else m.data i }

/-- `write(uint32_t value, uint8_t pos)` (lines 104-110): stores the four octets
`(value >> 8k) & 0xFF` at data indices pos+k, least significant octet at index pos.
The source writes index 3+pos first; the order is irrelevant as the indices differ. -/
def CANMsg.writeuint32 (m : CANMsg) (value : Nat) (pos : Nat) : CANMsg :=
  { m with data :=
      (setByte (setByte (setByte (setByte m.data
        (3 + pos) (value / 2 ^ 24 % 2 ^ 8))
        (2 + pos) (value / 2 ^ 16 % 2 ^ 8))
        (1 + pos) (value / 2 ^ 8 % 2 ^ 8))
        (0 + pos) (value % 2 ^ 8)) }

/-- `write(int32_t value, uint8_t pos)` (lines 96-102): same octet layout computed on
the signed value; `value >> 8k` is an arithmetic shift (floor division) and the mask
with 0xFF yields the nonnegative remainder modulo 256 of the two complement bits. -/
def CANMsg.writeint32 (m : CANMsg) (value : Int) (pos : Nat) : CANMsg :=
  { m with data :=
      (setByte (setByte (setByte (setByte m.data
        (3 + pos) (value / 2 ^ 24 % 2 ^ 8).toNat)
        (2 + pos) (value / 2 ^ 16 % 2 ^ 8).toNat)
        (1 + pos) (value / 2 ^ 8 % 2 ^ 8).toNat)
        (0 + pos) (value % 2 ^ 8).toNat) }

/-- `write(uint16_t value, uint8_t pos)` (lines 118-122). -/
def CANMsg.writeuint16 (m : CANMsg) (value : Nat) (pos : Nat) : CANMsg :=
  { m with data :=
      (setByte (setByte m.data
        (1 + pos) (value / 2 ^ 8 % 2 ^ 8))
        (0 + pos) (value % 2 ^ 8)) }

/-- `write(int16_t value, uint8_t pos)` (lines 112-116). -/
def CANMsg.writeint16 (m : CANMsg) (value : Int) (pos : Nat) : CANMsg :=
  { m with data :=
      (setByte (setByte m.data
        (1 + pos) (value / 2 ^ 8 % 2 ^ 8).toNat)
        (0 + pos) (value % 2 ^ 8).toNat) }

/-- `write(uint8_t value, uint8_t pos)` (lines 129-132): the argument type already
bounds the value below 256. -/
def CANMsg.writeuint8 (m : CANMsg) (value : Nat) (pos : Nat) : CANMsg :=
  { m with data := setByte m.data (0 + pos) value }

/-- `write(int8_t value, uint8_t pos)` (lines 124-127): `static_cast<uint8_t>(value)`
is the remainder of the two complement value modulo 256. -/
def CANMsg.writeint8 (m : CANMsg) (value : Int) (pos : Nat) : CANMsg :=
  { m with data := setByte m.data (0 + pos) (value % 2 ^ 8).toNat }

/-- Reinterpretation of a w-bit pattern as a signed two complement value. The
C sources produce the int8/int16/int32 results by casts and shifts whose value on
the target platforms is exactly this reinterpretation of the assembled bit
pattern. -/
def toSigned (w : Nat) (u : Nat) : Int :=
  if u < 2 ^ (w - 1) then (u : Int) else (u : Int) - 2 ^ w

/-- `readuint32(pos)` (lines 142-148): or-combination of the four octets shifted to
their significance, octet at index pos least significant. -/
def CANMsg.readuint32 (m : CANMsg) (pos : Nat) : Nat :=
  getByte m.data (3 + pos) <<< 24 ||| getByte m.data (2 + pos) <<< 16 |||
    getByte m.data (1 + pos) <<< 8 ||| getByte m.data (0 + pos)

/-- `readint32(pos)` (lines 134-140): the same bit pattern reinterpreted as int32. -/
def CANMsg.readint32 (m : CANMsg) (pos : Nat) : Int :=
  toSigned 32 (getByte m.data (3 + pos) <<< 24 ||| getByte m.data (2 + pos) <<< 16 |||
    getByte m.data (1 + pos) <<< 8 ||| getByte m.data (0 + pos))

/-- `readuint16(pos)` (lines 156-160). -/
def CANMsg.readuint16 (m : CANMsg) (pos : Nat) : Nat :=
  getByte m.data (1 + pos) <<< 8 ||| getByte m.data (0 + pos)

/-- `readint16(pos)` (lines 150-154). -/
def CANMsg.readint16 (m : CANMsg) (pos : Nat) : Int :=
  toSigned 16 (getByte m.data (1 + pos) <<< 8 ||| getByte m.data (0 + pos))

/-- `readuint8(pos)` (lines 167-170). -/
def CANMsg.readuint8 (m : CANMsg) (pos : Nat) : Nat :=
  getByte m.data (0 + pos)

/-- `readint8(pos)` (lines 162-165). -/
def CANMsg.readint8 (m : CANMsg) (pos : Nat) : Int :=
  toSigned 8 (getByte m.data (0 + pos))

/-! ### Byte store lemmas -/

theorem getByte_setByte_self {d : ByteStore} {i v : Nat} (h : i < 8) :
    getByte (setByte d i v) i = v := by
  unfold getByte setByte
  rw [dif_pos h, dif_pos h, Function.update_same]

theorem getByte_setByte_ne {d : ByteStore} {i j v : Nat} (hne : j ≠ i) :
    getByte (setByte d i v) j = getByte d j := by
  unfold getByte setByte
  by_cases hj : j < 8
  · by_cases hi : i < 8
    · rw [dif_pos hj, dif_pos hi, dif_pos hj,
        Function.update_noteq (Fin.ne_of_val_ne hne)]
    · rw [dif_neg hi]
  · rw [dif_neg hj, dif_neg hj]

theorem lor_shift_combine32 {b3 b2 b1 b0 : Nat} (h3 : b3 < 2 ^ 8) (h2 : b2 < 2 ^ 8)
    (h1 : b1 < 2 ^ 8) (h0 : b0 < 2 ^ 8) :
    b3 <<< 24 ||| b2 <<< 16 ||| b1 <<< 8 ||| b0 =
      ((b3 * 2 ^ 8 + b2) * 2 ^ 8 + b1) * 2 ^ 8 + b0 := by
  rw [Nat.shiftLeft_eq, Nat.shiftLeft_eq, Nat.shiftLeft_eq]
  rw [show b3 * 2 ^ 24 = 2 ^ 24 * b3 by ring, show b2 * 2 ^ 16 = 2 ^ 16 * b2 by ring,
    show b1 * 2 ^ 8 = 2 ^ 8 * b1 by ring]
  rw [← Nat.mul_add_lt_is_or (show 2 ^ 16 * b2 < 2 ^ 24 by
    simp only [show (2:Nat) ^ 16 = 65536 by norm_num, show (2:Nat) ^ 24 = 16777216 by norm_num,
      show (2:Nat) ^ 8 = 256 by norm_num] at h2 ⊢; omega) b3]
  rw [show 2 ^ 24 * b3 + 2 ^ 16 * b2 = 2 ^ 16 * (2 ^ 8 * b3 + b2) by ring]
  rw [← Nat.mul_add_lt_is_or (show 2 ^ 8 * b1 < 2 ^ 16 by
    simp only [show (2:Nat) ^ 16 = 65536 by norm_num,
      show (2:Nat) ^ 8 = 256 by norm_num] at h1 ⊢; omega) (2 ^ 8 * b3 + b2)]
  rw [show 2 ^ 16 * (2 ^ 8 * b3 + b2) + 2 ^ 8 * b1 =
    2 ^ 8 * (2 ^ 8 * (2 ^ 8 * b3 + b2) + b1) by ring]
  rw [← Nat.mul_add_lt_is_or h0 (2 ^ 8 * (2 ^ 8 * b3 + b2) + b1)]
  ring

theorem lor_shift_combine16 {b1 b0 : Nat} (h1 : b1 < 2 ^ 8) (h0 : b0 < 2 ^ 8) :
    b1 <<< 8 ||| b0 = b1 * 2 ^ 8 + b0 := by
  rw [Nat.shiftLeft_eq, show b1 * 2 ^ 8 = 2 ^ 8 * b1 by ring,
    ← Nat.mul_add_lt_is_or h0 b1]

theorem writeuint32_getByte (m : CANMsg) (v pos : Nat) (h : pos + 4 ≤ 8) :
    getByte (m.writeuint32 v pos).data (3 + pos) = v / 2 ^ 24 % 2 ^ 8 ∧
    getByte (m.writeuint32 v pos).data (2 + pos) = v / 2 ^ 16 % 2 ^ 8 ∧
    getByte (m.writeuint32 v pos).data (1 + pos) = v / 2 ^ 8 % 2 ^ 8 ∧
    getByte (m.writeuint32 v pos).data (0 + pos) = v % 2 ^ 8 := by
  simp only [CANMsg.writeuint32]
  refine ⟨?_, ?_, ?_, ?_⟩
  · rw [getByte_setByte_ne (by omega), getByte_setByte_ne (by omega),
      getByte_setByte_ne (by omega), getByte_setByte_self (by omega)]
  · rw [getByte_setByte_ne (by omega), getByte_setByte_ne (by omega),
      getByte_setByte_self (by omega)]
  · rw [getByte_setByte_ne (by omega), getByte_setByte_self (by omega)]
  · rw [getByte_setByte_self (by omega)]

theorem writeint32_getByte (m : CANMsg) (v : Int) (pos : Nat) (h : pos + 4 ≤ 8) :
    getByte (m.writeint32 v pos).data (3 + pos) = (v / 2 ^ 24 % 2 ^ 8).toNat ∧
    getByte (m.writeint32 v pos).data (2 + pos) = (v / 2 ^ 16 % 2 ^ 8).toNat ∧
    getByte (m.writeint32 v pos).data (1 + pos) = (v / 2 ^ 8 % 2 ^ 8).toNat ∧
    getByte (m.writeint32 v pos).data (0 + pos) = (v % 2 ^ 8).toNat := by
  simp only [CANMsg.writeint32]
  refine ⟨?_, ?_, ?_, ?_⟩
  · rw [getByte_setByte_ne (by omega), getByte_setByte_ne (by omega),
      getByte_setByte_ne (by omega), getByte_setByte_self (by omega)]
  · rw [getByte_setByte_ne (by omega), getByte_setByte_ne (by omega),
      getByte_setByte_self (by omega)]
  · rw [getByte_setByte_ne (by omega), getByte_setByte_self (by omega)]
  · rw [getByte_setByte_self (by omega)]

theorem writeuint16_getByte (m : CANMsg) (v pos : Nat) (h : pos + 2 ≤ 8) :
    getByte (m.writeuint16 v pos).data (1 + pos) = v / 2 ^ 8 % 2 ^ 8 ∧
    getByte (m.writeuint16 v pos).data (0 + pos) = v % 2 ^ 8 := by
  simp only [CANMsg.writeuint16]
  refine ⟨?_, ?_⟩
  · rw [getByte_setByte_ne (by omega), getByte_setByte_self (by omega)]
  · rw [getByte_setByte_self (by omega)]

theorem writeint16_getByte (m : CANMsg) (v : Int) (pos : Nat) (h : pos + 2 ≤ 8) :
    getByte (m.writeint16 v pos).data (1 + pos) = (v / 2 ^ 8 % 2 ^ 8).toNat ∧
    getByte (m.writeint16 v pos).data (0 + pos) = (v % 2 ^ 8).toNat := by
  simp only [CANMsg.writeint16]
  refine ⟨?_, ?_⟩
  · rw [getByte_setByte_ne (by omega), getByte_setByte_self (by omega)]
  · rw [getByte_setByte_self (by omega)]

theorem intMod256_toNat_lt (x : Int) : (x % 2 ^ 8).toNat < 2 ^ 8 := by
  have h1 : 0 ≤ x % 2 ^ 8 := Int.emod_nonneg x (by norm_num)
  have h2 : x % 2 ^ 8 < 2 ^ 8 := Int.emod_lt_of_pos x (by norm_num)
  omega

theorem readuint32_writeuint32 (m : CANMsg) (v pos : Nat) (hv : v < 2 ^ 32)
    (hp : pos + 4 ≤ 8) : (m.writeuint32 v pos).readuint32 pos = v := by
  obtain ⟨g3, g2, g1, g0⟩ := writeuint32_getByte m v pos hp
  unfold CANMsg.readuint32
  rw [g3, g2, g1, g0,
    lor_shift_combine32 (Nat.mod_lt _ (by norm_num)) (Nat.mod_lt _ (by norm_num))
      (Nat.mod_lt _ (by norm_num)) (Nat.mod_lt _ (by norm_num))]
  simp only [show (2:Nat) ^ 8 = 256 by norm_num, show (2:Nat) ^ 16 = 65536 by norm_num,
    show (2:Nat) ^ 24 = 16777216 by norm_num, show (2:Nat) ^ 32 = 4294967296 by norm_num] at hv ⊢
  omega

theorem readint32_writeint32 (m : CANMsg) (v : Int) (pos : Nat)
    (hl : -(2 ^ 31) ≤ v) (hu : v < 2 ^ 31) (hp : pos + 4 ≤ 8) :
    (m.writeint32 v pos).readint32 pos = v := by
  obtain ⟨g3, g2, g1, g0⟩ := writeint32_getByte m v pos hp
  unfold CANMsg.readint32
  rw [g3, g2, g1, g0,
    lor_shift_combine32 (intMod256_toNat_lt _) (intMod256_toNat_lt _)
      (intMod256_toNat_lt _) (intMod256_toNat_lt _)]
  unfold toSigned
  split <;>
  · rename_i hcase
    simp only [show (2:Nat) ^ 8 = 256 by norm_num, show (32 - 1 : Nat) = 31 by norm_num,
      show (2:Nat) ^ 31 = 2147483648 by norm_num, show (2:Int) ^ 8 = 256 by norm_num,
      show (2:Int) ^ 16 = 65536 by norm_num, show (2:Int) ^ 24 = 16777216 by norm_num,
      show (2:Int) ^ 31 = 2147483648 by norm_num,
      show (2:Int) ^ 32 = 4294967296 by norm_num] at hcase hl hu ⊢
    push_cast
    omega

theorem readuint16_writeuint16 (m : CANMsg) (v pos : Nat) (hv : v < 2 ^ 16)
    (hp : pos + 2 ≤ 8) : (m.writeuint16 v pos).readuint16 pos = v := by
  obtain ⟨g1, g0⟩ := writeuint16_getByte m v pos hp
  unfold CANMsg.readuint16
  rw [g1, g0, lor_shift_combine16 (Nat.mod_lt _ (by norm_num)) (Nat.mod_lt _ (by norm_num))]
  simp only [show (2:Nat) ^ 8 = 256 by norm_num, show (2:Nat) ^ 16 = 65536 by norm_num] at hv ⊢
  omega

theorem readint16_writeint16 (m : CANMsg) (v : Int) (pos : Nat)
    (hl : -(2 ^ 15) ≤ v) (hu : v < 2 ^ 15) (hp : pos + 2 ≤ 8) :
    (m.writeint16 v pos).readint16 pos = v := by
  obtain ⟨g1, g0⟩ := writeint16_getByte m v pos hp
  unfold CANMsg.readint16
  rw [g1, g0, lor_shift_combine16 (intMod256_toNat_lt _) (intMod256_toNat_lt _)]
  unfold toSigned
  split <;>
  · rename_i hcase
    simp only [show (2:Nat) ^ 8 = 256 by norm_num, show (16 - 1 : Nat) = 15 by norm_num,
      show (2:Nat) ^ 15 = 32768 by norm_num, show (2:Int) ^ 8 = 256 by norm_num,
      show (2:Int) ^ 15 = 32768 by norm_num,
      show (2:Int) ^ 16 = 65536 by norm_num] at hcase hl hu ⊢
    push_cast
    omega

theorem readuint8_writeuint8 (m : CANMsg) (v pos : Nat) (hv : v < 2 ^ 8)
    (hp : pos + 1 ≤ 8) : (m.writeuint8 v pos).readuint8 pos = v := by
  unfold CANMsg.readuint8
  simp only [CANMsg.writeuint8]
  rw [getByte_setByte_self (by omega)]

theorem readint8_writeint8 (m : CANMsg) (v : Int) (pos : Nat)
    (hl : -(2 ^ 7) ≤ v) (hu : v < 2 ^ 7) (hp : pos + 1 ≤ 8) :
    (m.writeint8 v pos).readint8 pos = v := by
  unfold CANMsg.readint8
  simp only [CANMsg.writeint8]
  rw [getByte_setByte_self (by omega)]
  unfold toSigned
  split <;>
  · rename_i hcase
    simp only [show (2:Nat) ^ 8 = 256 by norm_num, show (8 - 1 : Nat) = 7 by norm_num,
      show (2:Nat) ^ 7 = 128 by norm_num, show (2:Int) ^ 8 = 256 by norm_num,
      show (2:Int) ^ 7 = 128 by norm_num] at hcase hl hu ⊢
    omega

/-- A sample frame used to instantiate witnesses: all 8 octets supplied. -/
def sampleMsg : CANMsg := CANMsg.ofData 0x123 8 [1, 2, 3, 4, 5, 6, 7, 8]

/-- C6: For every width w in {8, 16, 32} bits, signed or unsigned, every value v of
that width, and every offset pos with pos + w/8 <= 8: after calling the matching
CANMsg::write(v, pos), the corresponding read at pos returns v, and the stored layout
is little-endian (least significant octet at data index pos). -/
theorem C6_little_endian_round_trip (m : CANMsg)
    (v32 : Nat) (i32 : Int) (v16 : Nat) (i16 : Int) (v8 : Nat) (i8 : Int)
    (p32 p16 p8 : Nat)
    (hv32 : v32 < 2 ^ 32) (hi32l : -(2 ^ 31) ≤ i32) (hi32u : i32 < 2 ^ 31)
    (hv16 : v16 < 2 ^ 16) (hi16l : -(2 ^ 15) ≤ i16) (hi16u : i16 < 2 ^ 15)
    (hv8 : v8 < 2 ^ 8) (hi8l : -(2 ^ 7) ≤ i8) (hi8u : i8 < 2 ^ 7)
    (hp32 : p32 + 4 ≤ 8) (hp16 : p16 + 2 ≤ 8) (hp8 : p8 + 1 ≤ 8) :
    (m.writeuint32 v32 p32).readuint32 p32 = v32 ∧
    (m.writeint32 i32 p32).readint32 p32 = i32 ∧
    (m.writeuint16 v16 p16).readuint16 p16 = v16 ∧
    (m.writeint16 i16 p16).readint16 p16 = i16 ∧
    (m.writeuint8 v8 p8).readuint8 p8 = v8 ∧
    (m.writeint8 i8 p8).readint8 p8 = i8 ∧
    getByte (m.writeuint32 v32 p32).data p32 = v32 % 2 ^ 8 ∧
    getByte (m.writeint32 i32 p32).data p32 = (i32 % 2 ^ 8).toNat ∧
    getByte (m.writeuint16 v16 p16).data p16 = v16 % 2 ^ 8 ∧
    getByte (m.writeint16 i16 p16).data p16 = (i16 % 2 ^ 8).toNat ∧
    getByte (m.writeuint8 v8 p8).data p8 = v8 ∧
    getByte (m.writeint8 i8 p8).data p8 = (i8 % 2 ^ 8).toNat := by
  refine ⟨readuint32_writeuint32 m v32 p32 hv32 hp32,
    readint32_writeint32 m i32 p32 hi32l hi32u hp32,
    readuint16_writeuint16 m v16 p16 hv16 hp16,
    readint16_writeint16 m i16 p16 hi16l hi16u hp16,
    readuint8_writeuint8 m v8 p8 hv8 hp8,
    readint8_writeint8 m i8 p8 hi8l hi8u hp8, ?_, ?_, ?_, ?_, ?_, ?_⟩
  · simpa using (writeuint32_getByte m v32 p32 hp32).2.2.2
  · simpa using (writeint32_getByte m i32 p32 hp32).2.2.2
  · simpa using (writeuint16_getByte m v16 p16 hp16).2
  · simpa using (writeint16_getByte m i16 p16 hp16).2
  · simp only [CANMsg.writeuint8, Nat.zero_add]
    rw [getByte_setByte_self (by omega)]
  · simp only [CANMsg.writeint8, Nat.zero_add]
    rw [getByte_setByte_self (by omega)]

/-- Witness for C6 at concrete values. -/
theorem C6_little_endian_round_trip_witness :
    (sampleMsg.writeuint32 2309737967 4).readuint32 4 = 2309737967 ∧
    (sampleMsg.writeint32 (-19088744) 4).readint32 4 = -19088744 ∧
    (sampleMsg.writeuint16 48879 3).readuint16 3 = 48879 ∧
    (sampleMsg.writeint16 (-12345) 3).readint16 3 = -12345 ∧
    (sampleMsg.writeuint8 171 7).readuint8 7 = 171 ∧
    (sampleMsg.writeint8 (-100) 7).readint8 7 = -100 ∧
    getByte (sampleMsg.writeuint32 2309737967 4).data 4 = 2309737967 % 2 ^ 8 ∧
    getByte (sampleMsg.writeint32 (-19088744) 4).data 4 = ((-19088744 : Int) % 2 ^ 8).toNat ∧
    getByte (sampleMsg.writeuint16 48879 3).data 3 = 48879 % 2 ^ 8 ∧
    getByte (sampleMsg.writeint16 (-12345) 3).data 3 = ((-12345 : Int) % 2 ^ 8).toNat ∧
    getByte (sampleMsg.writeuint8 171 7).data 7 = 171 ∧
    getByte (sampleMsg.writeint8 (-100) 7).data 7 = ((-100 : Int) % 2 ^ 8).toNat :=
  C6_little_endian_round_trip sampleMsg 2309737967 (-19088744) 48879 (-12345) 171 (-100)
    4 3 7 (by norm_num) (by norm_num) (by norm_num) (by norm_num) (by norm_num)
    (by norm_num) (by norm_num) (by norm_num) (by norm_num) (by norm_num) (by norm_num)
    (by norm_num)

/-- C9: For every CANMsg m and every call m.setData(L, d) with L <= 8: afterwards the
length is L and data octets at indices 0..L-1 equal d, but data octets at indices L..7
retain their previous values (they are not zeroed), the identifier and flag are
unchanged, unlike construction, where all octets beyond the supplied payload are
zero. -/
theorem C9_setData_keeps_trailing_octets (m : CANMsg) (len : Nat) (payload : List Nat)
    (hlen : len ≤ 8) (hp : payload.length = len) :
    (m.setData len payload).length = len ∧
    (∀ i : Fin 8, i.val < len → (m.setData len payload).data i = payload.getD i.val 0) ∧
    (∀ i : Fin 8, len ≤ i.val → (m.setData len payload).data i = m.data i) ∧
    (m.setData len payload).COBId = m.COBId ∧
    (m.setData len payload).flag = m.flag ∧
    (∀ i : Fin 8, len ≤ i.val → (CANMsg.ofData m.COBId len payload).data i = 0) := by
  refine ⟨rfl, ?_, ?_, rfl, rfl, ?_⟩
  · intro i hi
    simp [CANMsg.setData, hi]
  · intro i hi
    simp [CANMsg.setData, Nat.not_lt.mpr hi]
  · intro i hi
    simp [CANMsg.ofData, Nat.not_lt.mpr hi]

/-- Witness for C9 at concrete values: setData(3, [9, 8, 7]) on a frame whose octets
were 1..8 leaves octet 5 at its old value 6, while construction zeroes it. -/
theorem C9_setData_keeps_trailing_octets_witness :
    (sampleMsg.setData 3 [9, 8, 7]).length = 3 ∧
    (sampleMsg.setData 3 [9, 8, 7]).data (1 : Fin 8) = 8 ∧
    (sampleMsg.setData 3 [9, 8, 7]).data (5 : Fin 8) = 6 ∧
    (sampleMsg.setData 3 [9, 8, 7]).COBId = 0x123 ∧
    (sampleMsg.setData 3 [9, 8, 7]).flag = false ∧
    (CANMsg.ofData 0x123 3 [9, 8, 7]).data (5 : Fin 8) = 0 :=
  ⟨(C9_setData_keeps_trailing_octets sampleMsg 3 [9, 8, 7] (by norm_num) (by norm_num)).1,
    (C9_setData_keeps_trailing_octets sampleMsg 3 [9, 8, 7] (by norm_num)
      (by norm_num)).2.1 (1 : Fin 8) (by norm_num),
    (C9_setData_keeps_trailing_octets sampleMsg 3 [9, 8, 7] (by norm_num)
      (by norm_num)).2.2.1 (5 : Fin 8) (by decide),
    (C9_setData_keeps_trailing_octets sampleMsg 3 [9, 8, 7] (by norm_num)
      (by norm_num)).2.2.2.1,
    (C9_setData_keeps_trailing_octets sampleMsg 3 [9, 8, 7] (by norm_num)
      (by norm_num)).2.2.2.2.1,
    (C9_setData_keeps_trailing_octets sampleMsg 3 [9, 8, 7] (by norm_num)
      (by norm_num)).2.2.2.2.2 (5 : Fin 8) (by decide)⟩

/-! ### Generic bus runtime: tcan/include/tcan/Bus.hpp -/

/-- The part of the Bus state the queue operations touch: the outgoing message
queue (front of the std::queue is the list head), the running_ flag and the
isPassive_ flag. -/
structure BusState (Msg : Type) where
  outgoingMsgs : List Msg
  running : Bool
  isPassive : Bool
deriving DecidableEq

/-- Observable outcome of Bus::writeMessage: the return value, the writeError
out-parameter, the bus state afterwards, and the frames passed to writeData
during the call. -/
structure WriteMessageResult (Msg : Type) where
  ret : Bool
  writeError : Bool
  bus : BusState Msg
  writeDataCalls : List Msg
deriving DecidableEq

/-- Bus::writeMessage (Bus.hpp lines 145-161), with the virtual writeData supplied
as an oracle. writeError is initialized to false; on a non-empty queue,
writeSuccess is `isPassive_ ? true : writeData(front)`; on success the front frame
is popped and true returned, otherwise writeError is set and false returned. -/
def writeMessage {Msg : Type} (writeData : Msg → Bool) (s : BusState Msg) :
    WriteMessageResult Msg :=
  match s.outgoingMsgs with
  | [] => ⟨false, false, s, []⟩
  | front :: rest =>
    let writeSuccess := if s.isPassive then true else writeData front
    let calls := if s.isPassive then [] else [front]
    if writeSuccess then ⟨true, false, { s with outgoingMsgs := rest }, calls⟩
    else ⟨false, true, s, calls⟩

/-- Observable outcome of one iteration of Bus::processOutputQueue. -/
structure ProcessOutputQueueResult (Msg : Type) where
  ret : Bool
  bus : BusState Msg
  writeDataCalls : List Msg
deriving DecidableEq

/-- Bus::processOutputQueue (Bus.hpp lines 237-262). The while loop blocks on
condTransmitThread_ as long as the queue is empty and running_ is true; a call
observed while blocked is modelled as none. Once past the loop, the function
returns true immediately if running_ became false; otherwise it copies the front
frame, computes `isPassive_ ? true : writeData(msg)` and pops the front only on
success, returning the write result. -/
def processOutputQueue {Msg : Type} (writeData : Msg → Bool) (s : BusState Msg) :
    Option (ProcessOutputQueueResult Msg) :=
  if s.outgoingMsgs.length = 0 && s.running then none
  else if !s.running then some ⟨true, s, []⟩
  else
    match s.outgoingMsgs with
    | [] => none
    | front :: rest =>
      let writeSuccess := if s.isPassive then true else writeData front
      let calls := if s.isPassive then [] else [front]
      some ⟨writeSuccess, if writeSuccess then { s with outgoingMsgs := rest } else s, calls⟩

/-- The predicate passed to condOutputQueueEmpty_.wait in waitForEmptyQueue
(Bus.hpp line 211): `outgoingMsgs_.size() == 0 || !running_`. -/
def emptyQueuePredicate {Msg : Type} (s : BusState Msg) : Bool :=
  decide (s.outgoingMsgs.length = 0) || !s.running

/-- What waitForEmptyQueue hands back: the bus state at the moment it returns and
whether the unique_lock it returns through still owns the queue mutex. -/
structure WaitForEmptyQueueResult (Msg : Type) where
  bus : BusState Msg
  holdsQueueLock : Bool
deriving DecidableEq

/-- Bus::waitForEmptyQueue (Bus.hpp lines 208-212): acquires outgointMsgsMutex_,
then condition_variable::wait(lock, pred) re-checks the predicate under the lock at
every wakeup and returns, still holding the lock, at the first wakeup whose state
satisfies the predicate. The argument lists the bus states observed at successive
wakeups; none models a call that blocks forever because no observed state satisfies
the predicate. -/
def waitForEmptyQueue {Msg : Type} :
    List (BusState Msg) → Option (WaitForEmptyQueueResult Msg)
  | [] => none
  | s :: rest =>
    if emptyQueuePredicate s then some ⟨s, true⟩ else waitForEmptyQueue rest

/-- Bus::checkOutgoingMsgsSize (Bus.hpp lines 264-268): emits the throttled warning
"Exceeding max queue size on bus ...! Dropping message!" when the queue already
holds maxQueueSize_ or more frames. It is const and has no other effect; the value
returned here is whether the warning fired. -/
def checkOutgoingMsgsSize {Msg : Type} (maxQueueSize : Nat) (outgoingMsgs : List Msg) :
    Bool :=
  decide (outgoingMsgs.length ≥ maxQueueSize)

/-- Observable outcome of sendMessageWithoutLock / emplaceMessageWithoutLock: the
queue afterwards, whether the drop warning was logged, and whether
condTransmitThread_ was notified. -/
structure SendResult (Msg : Type) where
  outgoingMsgs : List Msg
  loggedDropWarning : Bool
  notifiedCondTransmit : Bool
deriving DecidableEq

/-- Bus::sendMessageWithoutLock (Bus.hpp lines 270-274): calls
checkOutgoingMsgsSize, then pushes the frame unconditionally and notifies
condTransmitThread_. emplaceMessageWithoutLock (lines 276-280) is identical up to
move semantics. -/
def sendMessageWithoutLock {Msg : Type} (maxQueueSize : Nat) (outgoingMsgs : List Msg)
    (msg : Msg) : SendResult Msg :=
  ⟨outgoingMsgs ++ [msg], checkOutgoingMsgsSize maxQueueSize outgoingMsgs, true⟩

/-- Outcome of the locking send path. -/
structure LockedSendResult (Msg : Type) where
  acquiredQueueLock : Bool
  result : SendResult Msg
deriving DecidableEq

/-- Bus::sendMessage (Bus.hpp lines 94-97): lock_guard on outgointMsgsMutex_,
then sendMessageWithoutLock. Bus::emplaceMessage (lines 103-106) is identical up
to move semantics. -/
def sendMessage {Msg : Type} (maxQueueSize : Nat) (outgoingMsgs : List Msg)
    (msg : Msg) : LockedSendResult Msg :=
  ⟨true, sendMessageWithoutLock maxQueueSize outgoingMsgs msg⟩

/-- The three worker threads a Bus may own. -/
inductive ThreadId where
  | receive
  | transmit
  | sanityCheck
deriving DecidableEq

/-- The BusOptions fields initBus consults (BusOptions.hpp is included by Bus.hpp;
the fields appear in Bus.hpp lines 63-85). -/
structure BusOptions where
  asynchronous : Bool
  priorityReceiveThread : Nat
  priorityTransmitThread : Nat
  prioritySanityCheckThread : Nat
  sanityCheckInterval : Nat
deriving DecidableEq

/-- Trace of the thread setup done by initBus: which worker threads were started
and, in order, each pthread_setschedparam(handle, SCHED_FIFO, prio) call as the
pair (thread owning the native handle that was passed, sched_priority value). -/
structure InitBusThreads where
  startedThreads : List ThreadId
  schedParamCalls : List (ThreadId × Nat)
deriving DecidableEq

/-- Thread setup performed by Bus::initBus (Bus.hpp lines 55-89) after
initializeInterface() succeeded: in asynchronous mode the receive and transmit
workers are started, plus the sanity-check worker when sanityCheckInterval_ > 0.
All three pthread_setschedparam calls in the source pass
receiveThread_.native_handle() (lines 69, 74 and 82), with the priorities
priorityReceiveThread_, priorityTransmitThread_ and prioritySanityCheckThread_
respectively. -/
def initBusThreadSetup (o : BusOptions) : InitBusThreads :=
  if o.asynchronous then
    { startedThreads := [ThreadId.receive, ThreadId.transmit] ++
        (if o.sanityCheckInterval > 0 then [ThreadId.sanityCheck] else [])
      schedParamCalls := [(ThreadId.receive, o.priorityReceiveThread),
          (ThreadId.receive, o.priorityTransmitThread)] ++
        (if o.sanityCheckInterval > 0 then
          [(ThreadId.receive, o.prioritySanityCheckThread)] else []) }
  else { startedThreads := [], schedParamCalls := [] }

/-! ### Device timeout bookkeeping: tcan/include/tcan/Device.hpp -/

/-- Device::checkDeviceTimeout (Device.hpp lines 78-82):
`!(maxDeviceTimeoutCounter != 0 && (deviceTimeoutCounter_++ > maxDeviceTimeoutCounter))`.
The && short-circuits, so when maxDeviceTimeoutCounter is 0 the counter is not
incremented. deviceTimeoutCounter_ is an unsigned int, so the post-increment wraps
at 2 ^ 32; the comparison sees the value before the increment. Returns the pair
(return value, counter afterwards). -/
def checkDeviceTimeout (maxDeviceTimeoutCounter deviceTimeoutCounter : Nat) :
    Bool × Nat :=
  if maxDeviceTimeoutCounter ≠ 0 then
    (!(decide (deviceTimeoutCounter > maxDeviceTimeoutCounter)),
      (deviceTimeoutCounter + 1) % 2 ^ 32)
  else (true, deviceTimeoutCounter)

/-- Device::sanityCheck default implementation (Device.hpp lines 62-64): returns
checkDeviceTimeout(). -/
def deviceSanityCheck (maxDeviceTimeoutCounter deviceTimeoutCounter : Nat) :
    Bool × Nat :=
  checkDeviceTimeout maxDeviceTimeoutCounter deviceTimeoutCounter

/-! ### CAN bus dispatch registration and SYNC: tcan_can/include/tcan_can/CanBus.hpp -/

/-- CanBus::CanFrameIdentifier (CanBus.hpp lines 19-27): identifier and mask, both
uint32_t. operator== compares both fields. -/
structure CanFrameIdentifier where
  identifier : Nat
  mask : Nat
deriving DecidableEq

/-- The dispatch map canFrameIdentifierToFunctionMap_, modelled as an association
list from matchers to slots; the boost hash only affects bucket placement inside
std::unordered_map, never which keys are considered equal, so it does not appear in
the model. -/
abbrev DispatchMap (Slot : Type) : Type := List (CanFrameIdentifier × Slot)

/-- Membership test of std::unordered_map keyed by CanFrameIdentifier: a key is
present iff some entry compares equal under operator== (both fields). -/
def dispatchContains {Slot : Type} (m : DispatchMap Slot) (key : CanFrameIdentifier) :
    Bool :=
  m.any fun e => decide (e.1 = key)

/-- CanBus::addCanMessage (CanBus.hpp lines 95-105; the canFrameId overloads at
75-85 call the same path with mask 0xffffffff):
`canFrameIdentifierToFunctionMap_.emplace(matcher, slot).second`.
std::unordered_map::emplace inserts nothing and yields false when a key equal to
the matcher is already present, and inserts the entry and yields true otherwise.
The slot (device pointer and bound callback) is left polymorphic. -/
def addCanMessage {Slot : Type} (m : DispatchMap Slot) (matcher : CanFrameIdentifier)
    (slot : Slot) : DispatchMap Slot × Bool :=
  if dispatchContains m matcher then (m, false) else (m ++ [(matcher, slot)], true)

/-- Modelled from the spec: tcan_can/CanMsg.hpp is not among the given sources. Per
spec section 4.1 (construct with identifier, length and optional payload; unset
bytes are zero) and the identical constructor `CANMsg(COBId, length, data)` in
yalc/include/yalc/CANMsg.hpp lines 40-47, the frame `CanMsg(0x80, 0, nullptr)`
built by sendSync has identifier 0x80, length 0 and all data octets zero. -/
def syncCanMsg : CANMsg := CANMsg.ofData 0x80 0 []

/-- CanBus::sendSync (CanBus.hpp lines 109-111): sendMessage(CanMsg(0x80, 0, nullptr)). -/
def sendSync (maxQueueSize : Nat) (outgoingMsgs : List CANMsg) : LockedSendResult CANMsg :=
  sendMessage maxQueueSize outgoingMsgs syncCanMsg

/-- CanBus::sendSyncWithoutLock (CanBus.hpp lines 139-141):
sendMessageWithoutLock(CanMsg(0x80, 0, nullptr)). -/
def sendSyncWithoutLock (maxQueueSize : Nat) (outgoingMsgs : List CANMsg) :
    SendResult CANMsg :=
  sendMessageWithoutLock maxQueueSize outgoingMsgs syncCanMsg

/-! ### Claim theorems -/

/-- C1 (counterexample to the claim; the code contradicts its own log text and
spec section 9): with maxQueueSize = 1 and the queue already holding one frame,
sendMessage emits the warning whose text announces "Dropping message!" and then
pushes the frame anyway: the queue grows to length 2 instead of staying at the
cap as the claim states. -/
theorem C1_full_queue_send_still_pushes :
    (sendMessage 1 [(0 : Nat)] 1).result.loggedDropWarning = true ∧
    (sendMessage 1 [(0 : Nat)] 1).result.outgoingMsgs = [0, 1] ∧
    (sendMessage 1 [(0 : Nat)] 1).result.outgoingMsgs.length = 2 ∧
    (sendMessageWithoutLock 1 [(0 : Nat)] 1).outgoingMsgs.length = 2 := by
  decide

/-- C2 (counterexample to the claim; spec section 9 calls the source line a
copy-paste bug): on an asynchronous bus with sanityCheckInterval = 100 and
priorities (10, 20, 30), initBus does start the receive, transmit and
sanity-check workers, but every pthread_setschedparam call passes the receive
thread native handle, so the transmit and sanity-check priorities are applied to
the receive thread rather than to their own threads. -/
theorem C2_sched_params_all_target_receive_thread :
    (initBusThreadSetup ⟨true, 10, 20, 30, 100⟩).startedThreads =
      [ThreadId.receive, ThreadId.transmit, ThreadId.sanityCheck] ∧
    (initBusThreadSetup ⟨true, 10, 20, 30, 100⟩).schedParamCalls =
      [(ThreadId.receive, 10), (ThreadId.receive, 20), (ThreadId.receive, 30)] ∧
    (ThreadId.transmit, 20) ∉ (initBusThreadSetup ⟨true, 10, 20, 30, 100⟩).schedParamCalls ∧
    (ThreadId.sanityCheck, 30) ∉ (initBusThreadSetup ⟨true, 10, 20, 30, 100⟩).schedParamCalls := by
  decide

/-- C3: In every execution of Bus::writeMessage and of the transmit loop body
Bus::processOutputQueue on a non-empty queue, the head frame is popped from the
outgoing queue iff writeData returned true or the bus was passive; when the bus is
passive, writeData is not invoked and the operation reports success; when
writeData returns false on an active bus, the head frame remains in the queue. -/
theorem C3_pop_iff_write_success_or_passive {Msg : Type} (writeData : Msg → Bool)
    (s : BusState Msg) (front : Msg) (rest : List Msg)
    (hq : s.outgoingMsgs = front :: rest) (hrun : s.running = true) :
    ((writeMessage writeData s).bus.outgoingMsgs = rest ↔
      (s.isPassive = true ∨ writeData front = true)) ∧
    (s.isPassive = true → (writeMessage writeData s).writeDataCalls = [] ∧
      (writeMessage writeData s).ret = true) ∧
    (s.isPassive = false → writeData front = false →
      (writeMessage writeData s).bus.outgoingMsgs = front :: rest ∧
      (writeMessage writeData s).writeError = true) ∧
    ((processOutputQueue writeData s).map (fun r => r.bus.outgoingMsgs) = some rest ↔
      (s.isPassive = true ∨ writeData front = true)) ∧
    (s.isPassive = true →
      (processOutputQueue writeData s).map (fun r => r.writeDataCalls) = some [] ∧
      (processOutputQueue writeData s).map (fun r => r.ret) = some true) ∧
    (s.isPassive = false → writeData front = false →
      (processOutputQueue writeData s).map (fun r => r.bus.outgoingMsgs) =
        some (front :: rest)) := by
  cases hP : s.isPassive <;> cases hw : writeData front <;>
    simp [writeMessage, processOutputQueue, hq, hrun, hP, hw, List.cons_ne_self]

/-- Concrete writeData oracle for the C3 witness: accepts only the frame 10. -/
def witnessWriteData : Nat → Bool := fun m => decide (m = 10)

/-- Concrete bus state for the C3 witness: active, running, frames 10 and 20 queued. -/
def witnessBusState : BusState Nat := ⟨[10, 20], true, false⟩

/-- Witness for C3 at a concrete active running bus with queue [10, 20]. -/
theorem C3_pop_iff_write_success_or_passive_witness :
    ((writeMessage witnessWriteData witnessBusState).bus.outgoingMsgs = [20] ↔
      (witnessBusState.isPassive = true ∨ witnessWriteData 10 = true)) ∧
    (witnessBusState.isPassive = true →
      (writeMessage witnessWriteData witnessBusState).writeDataCalls = [] ∧
      (writeMessage witnessWriteData witnessBusState).ret = true) ∧
    (witnessBusState.isPassive = false → witnessWriteData 10 = false →
      (writeMessage witnessWriteData witnessBusState).bus.outgoingMsgs = [10, 20] ∧
      (writeMessage witnessWriteData witnessBusState).writeError = true) ∧
    ((processOutputQueue witnessWriteData witnessBusState).map
        (fun r => r.bus.outgoingMsgs) = some [20] ↔
      (witnessBusState.isPassive = true ∨ witnessWriteData 10 = true)) ∧
    (witnessBusState.isPassive = true →
      (processOutputQueue witnessWriteData witnessBusState).map
        (fun r => r.writeDataCalls) = some [] ∧
      (processOutputQueue witnessWriteData witnessBusState).map
        (fun r => r.ret) = some true) ∧
    (witnessBusState.isPassive = false → witnessWriteData 10 = false →
      (processOutputQueue witnessWriteData witnessBusState).map
        (fun r => r.bus.outgoingMsgs) = some [10, 20]) :=
  C3_pop_iff_write_success_or_passive witnessWriteData witnessBusState 10 [20] rfl rfl

/-- C4: For every Device, the default sanityCheck increments the device timeout
counter and returns false once the counter exceeds maxDeviceTimeoutCounter; when
maxDeviceTimeoutCounter is 0 the check is disabled: sanityCheck always returns
true and the counter is not incremented. -/
theorem C4_default_sanityCheck_timeout (maxC counter : Nat) :
    (maxC ≠ 0 →
      ((deviceSanityCheck maxC counter).1 = false ↔ counter > maxC) ∧
      (deviceSanityCheck maxC counter).2 = (counter + 1) % 2 ^ 32) ∧
    (maxC = 0 →
      (deviceSanityCheck maxC counter).1 = true ∧
      (deviceSanityCheck maxC counter).2 = counter) := by
  unfold deviceSanityCheck checkDeviceTimeout
  constructor
  · intro h
    simp [h]
  · intro h
    simp [h]

/-- Witness for C4: enabled check at (max 3, counter 5) and disabled check at
(max 0, counter 5). -/
theorem C4_default_sanityCheck_timeout_witness :
    ((deviceSanityCheck 3 5).1 = false ↔ 5 > 3) ∧
    (deviceSanityCheck 3 5).2 = (5 + 1) % 2 ^ 32 ∧
    (deviceSanityCheck 0 5).1 = true ∧
    (deviceSanityCheck 0 5).2 = 5 :=
  ⟨((C4_default_sanityCheck_timeout 3 5).1 (by norm_num)).1,
    ((C4_default_sanityCheck_timeout 3 5).1 (by norm_num)).2,
    ((C4_default_sanityCheck_timeout 0 5).2 rfl).1,
    ((C4_default_sanityCheck_timeout 0 5).2 rfl).2⟩

/-- C5: For every call to CanBus::addCanMessage with a matcher (identifier, mask):
if a matcher equal in both identifier and mask is already registered, the call
returns false and the dispatch map is unchanged; otherwise the entry is inserted
and the call returns true. In particular, two registrations with the same
identifier but different masks both succeed. -/
theorem C5_addCanMessage_matcher_equality {Slot : Type} (m : DispatchMap Slot)
    (matcher : CanFrameIdentifier) (slot : Slot) :
    (dispatchContains m matcher = true → addCanMessage m matcher slot = (m, false)) ∧
    (dispatchContains m matcher = false →
      addCanMessage m matcher slot = (m ++ [(matcher, slot)], true)) ∧
    (∀ id mask1 mask2 : Nat, ∀ slot1 slot2 : Slot, mask1 ≠ mask2 →
      dispatchContains m ⟨id, mask1⟩ = false →
      dispatchContains m ⟨id, mask2⟩ = false →
      (addCanMessage m ⟨id, mask1⟩ slot1).2 = true ∧
      (addCanMessage (addCanMessage m ⟨id, mask1⟩ slot1).1 ⟨id, mask2⟩ slot2).2 =
        true) := by
  refine ⟨?_, ?_, ?_⟩
  · intro h
    simp [addCanMessage, h]
  · intro h
    simp [addCanMessage, h]
  · intro id mask1 mask2 slot1 slot2 hne h1 h2
    refine ⟨by simp [addCanMessage, h1], ?_⟩
    simp only [addCanMessage, h1, Bool.false_eq_true, if_false]
    have hc : dispatchContains (m ++ [(⟨id, mask1⟩, slot1)]) ⟨id, mask2⟩ = false := by
      simp only [dispatchContains, List.any_append, Bool.or_eq_false_iff]
      refine ⟨h2, ?_⟩
      simp [CanFrameIdentifier.mk.injEq, hne]
    simp [hc]

/-- Witness for C5: inserting (0x181, all-ones mask) into the empty map succeeds;
re-inserting the equal matcher fails and leaves the map unchanged; inserting the
same identifier under a different mask succeeds. -/
theorem C5_addCanMessage_matcher_equality_witness :
    addCanMessage ([] : DispatchMap Nat) ⟨0x181, 0xffffffff⟩ 7 =
      ([(⟨0x181, 0xffffffff⟩, 7)], true) ∧
    addCanMessage [(⟨0x181, 0xffffffff⟩, 7)] ⟨0x181, 0xffffffff⟩ 9 =
      ([(⟨0x181, 0xffffffff⟩, 7)], false) ∧
    (addCanMessage [(⟨0x181, 0xffffffff⟩, 7)] ⟨0x181, 0x7ff⟩ 9).2 = true :=
  ⟨(C5_addCanMessage_matcher_equality ([] : DispatchMap Nat) ⟨0x181, 0xffffffff⟩ 7).2.1
      (by decide),
    (C5_addCanMessage_matcher_equality [(⟨0x181, 0xffffffff⟩, 7)] ⟨0x181, 0xffffffff⟩
      9).1 (by decide),
    ((C5_addCanMessage_matcher_equality ([] : DispatchMap Nat) ⟨0x181, 0xffffffff⟩
      7).2.2 0x181 0xffffffff 0x7ff 7 9 (by decide) (by decide) (by decide)).2⟩

/-- C7: Bus::waitForEmptyQueue returns only in a state where the outgoing queue is
empty or the running flag is false, and it returns holding the queue mutex lock. -/
theorem C7_waitForEmptyQueue_postcondition {Msg : Type}
    (observations : List (BusState Msg)) (r : WaitForEmptyQueueResult Msg)
    (h : waitForEmptyQueue observations = some r) :
    (r.bus.outgoingMsgs = [] ∨ r.bus.running = false) ∧ r.holdsQueueLock = true := by
  induction observations with
  | nil => simp [waitForEmptyQueue] at h
  | cons s rest ih =>
    rw [waitForEmptyQueue] at h
    split at h
    · rename_i hp
      cases h
      have hp2 : s.outgoingMsgs.length = 0 ∨ s.running = false := by
        simpa [emptyQueuePredicate, Bool.or_eq_true, Bool.not_eq_true'] using hp
      exact ⟨hp2.imp (fun h1 => List.length_eq_zero.mp h1) id, rfl⟩
    · exact ih h

/-- Witness for C7: two wakeups, the first with a non-empty queue, the second with
the queue drained. -/
theorem C7_waitForEmptyQueue_postcondition_witness :
    ((⟨⟨[], true, false⟩, true⟩ : WaitForEmptyQueueResult Nat).bus.outgoingMsgs = [] ∨
      (⟨⟨[], true, false⟩, true⟩ : WaitForEmptyQueueResult Nat).bus.running = false) ∧
    (⟨⟨[], true, false⟩, true⟩ : WaitForEmptyQueueResult Nat).holdsQueueLock = true :=
  C7_waitForEmptyQueue_postcondition
    [⟨[5], true, false⟩, ⟨[], true, false⟩] ⟨⟨[], true, false⟩, true⟩ (by decide)

/-- C8: CanBus::sendSync enqueues exactly one frame with identifier 0x80, length 0,
and all data octets zero onto the outgoing queue, and CanBus::sendSyncWithoutLock
enqueues the same frame without acquiring the queue lock. -/
theorem C8_sendSync_enqueues_sync_frame (maxQueueSize : Nat) (q : List CANMsg) :
    (sendSync maxQueueSize q).result.outgoingMsgs = q ++ [syncCanMsg] ∧
    (sendSync maxQueueSize q).acquiredQueueLock = true ∧
    (sendSyncWithoutLock maxQueueSize q).outgoingMsgs = q ++ [syncCanMsg] ∧
    sendSyncWithoutLock maxQueueSize q = (sendSync maxQueueSize q).result ∧
    syncCanMsg.COBId = 0x80 ∧
    syncCanMsg.length = 0 ∧
    (∀ i : Fin 8, syncCanMsg.data i = 0) := by
  refine ⟨rfl, rfl, rfl, rfl, rfl, rfl, ?_⟩
  intro i
  simp [syncCanMsg, CANMsg.ofData]

/-- C10: For every call to Bus::writeMessage while the outgoing queue is empty, the
function returns false and sets writeError to false: an empty queue is reported as
nothing-to-write, never as a write error, and the queue and bus state are
unchanged. -/
theorem C10_writeMessage_empty_queue {Msg : Type} (writeData : Msg → Bool)
    (s : BusState Msg) (h : s.outgoingMsgs = []) :
    writeMessage writeData s = ⟨false, false, s, []⟩ := by
  simp [writeMessage, h]

/-- Witness for C10 at an empty queue. -/
theorem C10_writeMessage_empty_queue_witness :
    writeMessage (fun _ => true) (⟨[], true, false⟩ : BusState Nat) =
      ⟨false, false, ⟨[], true, false⟩, []⟩ :=
  C10_writeMessage_empty_queue (fun _ => true) ⟨[], true, false⟩ rfl

end Tcan
